import Mathlib

/-!
# Verification of the three-bucket retirement simulator

A shallow embedding of the simulation engine in `src/app.py`: parameter
collection, fixed-percentage bucket allocation, the year-by-year loop
(inflation-adjusted expense, withdrawal cascade, market-crash step, growth
compounding, exhaustion check with early break), the traffic-light health
classification and the additional-corpus recommendation.  Python floats are
modelled as exact rationals; Python ints as naturals (ages, years) with the
status comparison done over ℤ exactly as Python integer arithmetic does it.
-/

namespace Retirement

/-- The sidebar inputs of `src/app.py` (lines 17-42).  `crashDuration` is the
integer the selectbox maps to (0, 3 or 5); `inflationShock` the checkbox. -/
structure Params where
  currentAge : ℕ
  retirementAge : ℕ
  lifeExpectancy : ℕ
  monthlyExpenseToday : ℚ
  inflation : ℚ
  monthlyPension : ℚ
  totalCorpus : ℚ
  r1 : ℚ
  r2 : ℚ
  r3 : ℚ
  crashDuration : ℕ
  inflationShock : Bool
deriving Repr, DecidableEq

/-- The validity envelope the input widgets enforce: ordered ages,
non-negative currency amounts, rates in `[0,1)`. -/
def Valid (p : Params) : Prop :=
  p.currentAge < p.retirementAge ∧ p.retirementAge < p.lifeExpectancy ∧
  0 ≤ p.monthlyExpenseToday ∧ 0 ≤ p.monthlyPension ∧ 0 ≤ p.totalCorpus ∧
  0 ≤ p.inflation ∧ p.inflation < 1 ∧
  0 ≤ p.r1 ∧ p.r1 < 1 ∧ 0 ≤ p.r2 ∧ p.r2 < 1 ∧ 0 ≤ p.r3 ∧ p.r3 < 1

instance (p : Params) : Decidable (Valid p) := by
  unfold Valid; infer_instance

/-- `years_to_retirement` (app.py line 51). -/
def yearsToRetirement (p : Params) : ℕ := p.retirementAge - p.currentAge

/-- `monthly_expense_retirement` (app.py line 53). -/
def monthlyExpenseRetirement (p : Params) : ℚ :=
  p.monthlyExpenseToday * (1 + p.inflation) ^ yearsToRetirement p

/-- `annual_expense_base` (app.py line 54). -/
def annualExpenseBase (p : Params) : ℚ := monthlyExpenseRetirement p * 12

/-- `annual_pension` (app.py line 55). -/
def annualPension (p : Params) : ℚ := p.monthlyPension * 12

/-- Bucket balances `b1, b2, b3` threaded through the loop. -/
structure Buckets where
  b1 : ℚ
  b2 : ℚ
  b3 : ℚ
deriving Repr, DecidableEq

/-- Fixed-percentage allocation 20/30/50 (app.py lines 66-68). -/
def initBuckets (p : Params) : Buckets :=
  ⟨p.totalCorpus * (20 / 100), p.totalCorpus * (30 / 100), p.totalCorpus * (50 / 100)⟩

/-- `crash_impact = 0.15` (app.py line 76), a hard-coded constant. -/
def crashImpact : ℚ := 15 / 100

/-- `infl` for a simulated year (app.py line 84): inflation plus 4 points in
the first five years when the shock checkbox is on. -/
def effectiveInflation (p : Params) (year : ℕ) : ℚ :=
  if p.inflationShock = true ∧ year ≤ 5 then p.inflation + 4 / 100 else p.inflation

/-- `annual_expense` for a simulated year (app.py line 85). -/
def annualExpense (p : Params) (year : ℕ) : ℚ :=
  annualExpenseBase p * (1 + effectiveInflation p year) ^ (year - 1)

/-- `annual_gap` (app.py line 86). -/
def annualGap (p : Params) (year : ℕ) : ℚ :=
  max 0 (annualExpense p year - annualPension p)

/-- The withdrawal cascade (app.py lines 88-101), transcribed mutation by
mutation: bucket 1 unconditionally up to `min b1 gap`, buckets 2 and 3 each
guarded by `gap > 0 and bucket > 0`. -/
def withdrawStep (gap : ℚ) (s : Buckets) : Buckets :=
  let t1 := min s.b1 gap
  let b1 := s.b1 - t1
  let gap1 := gap - t1
  let t2 := if 0 < gap1 ∧ 0 < s.b2 then min s.b2 gap1 else 0
  let b2 := s.b2 - t2
  let gap2 := gap1 - t2
  let t3 := if 0 < gap2 ∧ 0 < s.b3 then min s.b3 gap2 else 0
  let b3 := s.b3 - t3
  ⟨b1, b2, b3⟩

/-- The market-crash step (app.py lines 104-105): bucket 3 is scaled by
`1 - crash_impact` in every year up to `crash_duration`. -/
def crashStep (p : Params) (year : ℕ) (s : Buckets) : Buckets :=
  if year ≤ p.crashDuration then ⟨s.b1, s.b2, s.b3 * (1 - crashImpact)⟩ else s

/-- The growth step (app.py lines 108-110): each bucket compounds by its own
rate. -/
def growthStep (p : Params) (s : Buckets) : Buckets :=
  ⟨s.b1 * (1 + p.r1), s.b2 * (1 + p.r2), s.b3 * (1 + p.r3)⟩

/-- One iteration of the loop body acting on bucket state, in source order:
withdrawals, then crash, then growth. -/
def yearStep (p : Params) (year : ℕ) (s : Buckets) : Buckets :=
  growthStep p (crashStep p year (withdrawStep (annualGap p year) s))

/-- One row appended to `records` (app.py line 115). -/
structure YearRecord where
  age : ℕ
  monthlyExpense : ℚ
  b1 : ℚ
  b2 : ℚ
  b3 : ℚ
  total : ℚ
deriving Repr, DecidableEq

/-- The row appended for a year whose end-of-year bucket state is `s'`
(app.py lines 112-115): age `retirement_age + year - 1`, the
inflation-adjusted monthly expense, the three balances and their total. -/
def mkRow (p : Params) (year : ℕ) (s' : Buckets) : YearRecord :=
  ⟨p.retirementAge + year - 1, annualExpense p year / 12,
    s'.b1, s'.b2, s'.b3, s'.b1 + s'.b2 + s'.b3⟩

/-- The simulation loop (app.py lines 82-119).  `n` is the number of years
still to simulate, `year` the 1-indexed current year.  Returns the record
list and the (optional) exhaustion age; the loop breaks at the first year
whose end-of-year total is `≤ 0`, after appending that year's record. -/
def simLoop (p : Params) : ℕ → ℕ → Buckets → List YearRecord × Option ℕ
  | 0, _, _ => ([], none)
  | n + 1, year, s =>
    let s' := yearStep p year s
    if s'.b1 + s'.b2 + s'.b3 ≤ 0 then
      ([mkRow p year s'], some (p.retirementAge + year - 1))
    else
      (mkRow p year s' :: (simLoop p n (year + 1) s').1,
        (simLoop p n (year + 1) s').2)

/-- `retirement_years` (app.py line 77). -/
def retirementYears (p : Params) : ℕ := p.lifeExpectancy - p.retirementAge

/-- The whole simulation: the loop from year 1 on the 20/30/50 allocation. -/
def simulate (p : Params) : List YearRecord × Option ℕ :=
  simLoop p (retirementYears p) 1 (initBuckets p)

/-- Traffic-light values (app.py lines 136-141). -/
inductive Status where
  | GREEN
  | AMBER
  | RED
deriving Repr, DecidableEq

/-- The traffic-light score (app.py lines 136-141).  Ages are Python ints, so
the comparison `exhaustion_age >= life_expectancy - 3` is over ℤ. -/
def healthStatus (exhaustionAge : Option ℕ) (lifeExpectancy : ℕ) : Status :=
  match exhaustionAge with
  | none => .GREEN
  | some a => if (lifeExpectancy : ℤ) - 3 ≤ (a : ℤ) then .AMBER else .RED

/-- Mean of the inflation-adjusted monthly-expense column of the dataframe
(app.py line 148). -/
def meanMonthlyExpense (records : List YearRecord) : ℚ :=
  (records.map (fun r => r.monthlyExpense)).sum / records.length

/-- `avg_annual_gap` (app.py lines 146-149). -/
def avgAnnualGap (p : Params) (records : List YearRecord) : ℚ :=
  max 0 (meanMonthlyExpense records * 12 - annualPension p)

/-- `additional_corpus_needed` (app.py lines 151-154).  Python tests
`if exhaustion_age:`, which is falsy both for `None` and for the int 0. -/
def additionalCorpusNeeded (p : Params) (records : List YearRecord)
    (exhaustionAge : Option ℕ) : ℚ :=
  match exhaustionAge with
  | none => 0
  | some a =>
    if a = 0 then 0
    else avgAnnualGap p records * ((p.lifeExpectancy : ℚ) - (a : ℚ))

/-- The withdrawal cascade as §4.3 of the design document words it: take
`min(b1, gap)` from bucket 1, `min(b2, residual)` from bucket 2,
`min(b3, residual)` from bucket 3, with no guard conditions.  Stated from the
document, to be compared against `withdrawStep` from the source. -/
def specWithdraw (gap : ℚ) (s : Buckets) : Buckets :=
  let t1 := min s.b1 gap
  let t2 := min s.b2 (gap - t1)
  let t3 := min s.b3 (gap - t1 - t2)
  ⟨s.b1 - t1, s.b2 - t2, s.b3 - t3⟩

/-! ## Concrete inputs used to exercise the theorems -/

/-- A small valid parameter set whose corpus runs out in the first year. -/
def pBase : Params := ⟨1, 2, 4, 100, 0, 0, 1000, 0, 0, 0, 0, false⟩

/-- The single record `simulate pBase` produces. -/
def rB : YearRecord := ⟨2, 100, 0, 0, 0, 0⟩

/-- Zero corpus but a pension that covers the expense many times over. -/
def pCov : Params := ⟨1, 2, 4, 1000, 0, 100000, 0, 0, 0, 0, 0, false⟩

/-- Zero inflation with the inflation-shock checkbox on. -/
def pShock : Params := ⟨55, 60, 85, 75000, 0, 0, 0, 0, 0, 0, 0, true⟩

/-- A parameter set with the sustained 3-year crash selected. -/
def pCrash : Params := ⟨1, 2, 5, 0, 0, 0, 1000, 0, 0, 0, 3, false⟩

/-! ## Helper lemmas -/

lemma annualGap_nonneg (p : Params) (year : ℕ) : 0 ≤ annualGap p year :=
  le_max_left 0 _

lemma min_eq_zero_of_guard_false {b g : ℚ} (hg : 0 ≤ g) (hb : 0 ≤ b)
    (h : ¬(0 < g ∧ 0 < b)) : min b g = 0 := by
  rcases not_and_or.mp h with h1 | h1
  · have : g = 0 := le_antisymm (not_lt.mp h1) hg
    simp [this, min_eq_right hb]
  · have : b = 0 := le_antisymm (not_lt.mp h1) hb
    simp [this, min_eq_left hg]

/-- The three guarded mutations of the code's cascade coincide with the plain
three-min cascade whenever the gap and the bucket balances are non-negative. -/
lemma withdraw_eq_cascade (gap : ℚ) (s : Buckets) (_hg : 0 ≤ gap)
    (h2 : 0 ≤ s.b2) (h3 : 0 ≤ s.b3) :
    withdrawStep gap s = specWithdraw gap s := by
  simp only [withdrawStep, specWithdraw]
  have hg1 : 0 ≤ gap - min s.b1 gap := sub_nonneg.2 (min_le_right _ _)
  by_cases hc2 : 0 < gap - min s.b1 gap ∧ 0 < s.b2
  · have hg2 : 0 ≤ gap - min s.b1 gap - min s.b2 (gap - min s.b1 gap) :=
      sub_nonneg.2 (min_le_right _ _)
    by_cases hc3 : 0 < gap - min s.b1 gap - min s.b2 (gap - min s.b1 gap) ∧ 0 < s.b3
    · simp [hc2, hc3]
    · simp [hc2, hc3, min_eq_zero_of_guard_false hg2 h3 hc3]
  · have ht2 : min s.b2 (gap - min s.b1 gap) = 0 :=
      min_eq_zero_of_guard_false hg1 h2 hc2
    by_cases hc3 : 0 < gap - min s.b1 gap ∧ 0 < s.b3
    · simp [hc2, hc3, ht2]
    · simp [hc2, hc3, ht2, min_eq_zero_of_guard_false hg1 h3 hc3]

lemma withdrawStep_nonneg (gap : ℚ) (s : Buckets)
    (_h1 : 0 ≤ s.b1) (h2 : 0 ≤ s.b2) (h3 : 0 ≤ s.b3) :
    0 ≤ (withdrawStep gap s).b1 ∧ 0 ≤ (withdrawStep gap s).b2 ∧
      0 ≤ (withdrawStep gap s).b3 := by
  simp only [withdrawStep]
  refine ⟨sub_nonneg.2 (min_le_left _ _), ?_, ?_⟩
  · split_ifs <;> simp [sub_nonneg, min_le_left, h2]
  · split_ifs <;> simp [sub_nonneg, min_le_left, h3]

lemma crashStep_nonneg (p : Params) (year : ℕ) (s : Buckets)
    (h1 : 0 ≤ s.b1) (h2 : 0 ≤ s.b2) (h3 : 0 ≤ s.b3) :
    0 ≤ (crashStep p year s).b1 ∧ 0 ≤ (crashStep p year s).b2 ∧
      0 ≤ (crashStep p year s).b3 := by
  simp only [crashStep, crashImpact]
  split_ifs <;> refine ⟨h1, h2, ?_⟩
  · have : (0 : ℚ) ≤ 1 - 15 / 100 := by norm_num
    exact mul_nonneg h3 this
  · exact h3

lemma growthStep_nonneg (p : Params) (s : Buckets)
    (hr1 : 0 ≤ p.r1) (hr2 : 0 ≤ p.r2) (hr3 : 0 ≤ p.r3)
    (h1 : 0 ≤ s.b1) (h2 : 0 ≤ s.b2) (h3 : 0 ≤ s.b3) :
    0 ≤ (growthStep p s).b1 ∧ 0 ≤ (growthStep p s).b2 ∧
      0 ≤ (growthStep p s).b3 := by
  simp only [growthStep]
  exact ⟨mul_nonneg h1 (by linarith), mul_nonneg h2 (by linarith),
    mul_nonneg h3 (by linarith)⟩

lemma yearStep_nonneg (p : Params) (year : ℕ) (s : Buckets)
    (hr1 : 0 ≤ p.r1) (hr2 : 0 ≤ p.r2) (hr3 : 0 ≤ p.r3)
    (h1 : 0 ≤ s.b1) (h2 : 0 ≤ s.b2) (h3 : 0 ≤ s.b3) :
    0 ≤ (yearStep p year s).b1 ∧ 0 ≤ (yearStep p year s).b2 ∧
      0 ≤ (yearStep p year s).b3 := by
  unfold yearStep
  obtain ⟨w1, w2, w3⟩ := withdrawStep_nonneg (annualGap p year) s h1 h2 h3
  obtain ⟨c1, c2, c3⟩ := crashStep_nonneg p year _ w1 w2 w3
  exact growthStep_nonneg p _ hr1 hr2 hr3 c1 c2 c3

lemma mkRow_age (p : Params) (year : ℕ) (s : Buckets) :
    (mkRow p year s).age = p.retirementAge + year - 1 := rfl

lemma mkRow_total (p : Params) (year : ℕ) (s : Buckets) :
    (mkRow p year s).total = s.b1 + s.b2 + s.b3 := rfl

lemma cons_eq_append {a : YearRecord} {l rs : List YearRecord} {r : YearRecord}
    (h : l = rs ++ [r]) : a :: l = (a :: rs) ++ [r] := by
  rw [h]; rfl

lemma simLoop_nonneg (p : Params) (hr1 : 0 ≤ p.r1) (hr2 : 0 ≤ p.r2)
    (hr3 : 0 ≤ p.r3) :
    ∀ (n year : ℕ) (s : Buckets), 0 ≤ s.b1 → 0 ≤ s.b2 → 0 ≤ s.b3 →
      ∀ r ∈ (simLoop p n year s).1, 0 ≤ r.b1 ∧ 0 ≤ r.b2 ∧ 0 ≤ r.b3 := by
  intro n
  induction n with
  | zero => intro year s _ _ _ r hr; simp [simLoop] at hr
  | succ n ih =>
    intro year s h1 h2 h3 r hr
    obtain ⟨g1, g2, g3⟩ := yearStep_nonneg p year s hr1 hr2 hr3 h1 h2 h3
    simp only [simLoop] at hr
    split_ifs at hr with htot
    · simp only [List.mem_singleton] at hr
      subst hr; exact ⟨g1, g2, g3⟩
    · simp only [List.mem_cons] at hr
      rcases hr with hr | hr
      · subst hr; exact ⟨g1, g2, g3⟩
      · exact ih (year + 1) _ g1 g2 g3 r hr

lemma withdrawStep_zero_b1 (gap : ℚ) (s : Buckets) (hg : 0 ≤ gap)
    (h : s.b1 = 0) : (withdrawStep gap s).b1 = 0 := by
  simp [withdrawStep, h, min_eq_left hg]

lemma withdrawStep_zero_b2 (gap : ℚ) (s : Buckets) (h : s.b2 = 0) :
    (withdrawStep gap s).b2 = 0 := by
  simp [withdrawStep, h]

lemma withdrawStep_zero_b3 (gap : ℚ) (s : Buckets) (h : s.b3 = 0) :
    (withdrawStep gap s).b3 = 0 := by
  simp only [withdrawStep]
  split_ifs <;> simp [h]

lemma crashStep_b1 (p : Params) (year : ℕ) (s : Buckets) :
    (crashStep p year s).b1 = s.b1 := by
  simp only [crashStep]; split_ifs <;> rfl

lemma crashStep_b2 (p : Params) (year : ℕ) (s : Buckets) :
    (crashStep p year s).b2 = s.b2 := by
  simp only [crashStep]; split_ifs <;> rfl

lemma crashStep_zero_b3 (p : Params) (year : ℕ) (s : Buckets) (h : s.b3 = 0) :
    (crashStep p year s).b3 = 0 := by
  simp only [crashStep]; split_ifs <;> simp [h]

lemma yearStep_zero_b1 (p : Params) (year : ℕ) (s : Buckets) (h : s.b1 = 0) :
    (yearStep p year s).b1 = 0 := by
  unfold yearStep growthStep
  rw [crashStep_b1, withdrawStep_zero_b1 _ _ (annualGap_nonneg p year) h,
    zero_mul]

lemma yearStep_zero_b2 (p : Params) (year : ℕ) (s : Buckets) (h : s.b2 = 0) :
    (yearStep p year s).b2 = 0 := by
  unfold yearStep growthStep
  rw [crashStep_b2, withdrawStep_zero_b2 _ _ h, zero_mul]

lemma yearStep_zero_b3 (p : Params) (year : ℕ) (s : Buckets) (h : s.b3 = 0) :
    (yearStep p year s).b3 = 0 := by
  unfold yearStep growthStep
  rw [crashStep_zero_b3 _ _ _ (withdrawStep_zero_b3 _ _ h), zero_mul]

lemma simLoop_all_zero_b1 (p : Params) :
    ∀ (n year : ℕ) (s : Buckets), s.b1 = 0 →
      ∀ r ∈ (simLoop p n year s).1, r.b1 = 0 := by
  intro n
  induction n with
  | zero => intro year s _ r hr; simp [simLoop] at hr
  | succ n ih =>
    intro year s h r hr
    have hz := yearStep_zero_b1 p year s h
    simp only [simLoop] at hr
    split_ifs at hr with htot
    · simp only [List.mem_singleton] at hr; subst hr; exact hz
    · simp only [List.mem_cons] at hr
      rcases hr with hr | hr
      · subst hr; exact hz
      · exact ih (year + 1) _ hz r hr

lemma simLoop_all_zero_b2 (p : Params) :
    ∀ (n year : ℕ) (s : Buckets), s.b2 = 0 →
      ∀ r ∈ (simLoop p n year s).1, r.b2 = 0 := by
  intro n
  induction n with
  | zero => intro year s _ r hr; simp [simLoop] at hr
  | succ n ih =>
    intro year s h r hr
    have hz := yearStep_zero_b2 p year s h
    simp only [simLoop] at hr
    split_ifs at hr with htot
    · simp only [List.mem_singleton] at hr; subst hr; exact hz
    · simp only [List.mem_cons] at hr
      rcases hr with hr | hr
      · subst hr; exact hz
      · exact ih (year + 1) _ hz r hr

lemma simLoop_all_zero_b3 (p : Params) :
    ∀ (n year : ℕ) (s : Buckets), s.b3 = 0 →
      ∀ r ∈ (simLoop p n year s).1, r.b3 = 0 := by
  intro n
  induction n with
  | zero => intro year s _ r hr; simp [simLoop] at hr
  | succ n ih =>
    intro year s h r hr
    have hz := yearStep_zero_b3 p year s h
    simp only [simLoop] at hr
    split_ifs at hr with htot
    · simp only [List.mem_singleton] at hr; subst hr; exact hz
    · simp only [List.mem_cons] at hr
      rcases hr with hr | hr
      · subst hr; exact hz
      · exact ih (year + 1) _ hz r hr

/-- Any record with non-positive total is the last one: the exhaustion age is
its age, all records before it have positive total, and its age is
`retirementAge + year + length - 2` (stated addition-only). -/
lemma simLoop_stop (p : Params) :
    ∀ (n year : ℕ) (s : Buckets), 1 ≤ year →
      ∀ r ∈ (simLoop p n year s).1, r.total ≤ 0 →
        (simLoop p n year s).2 = some r.age ∧
        (∃ rs, (simLoop p n year s).1 = rs ++ [r] ∧ ∀ x ∈ rs, 0 < x.total) ∧
        r.age + 2 = p.retirementAge + year + (simLoop p n year s).1.length := by
  intro n
  induction n with
  | zero => intro year s _ r hr; simp [simLoop] at hr
  | succ n ih =>
    intro year s hy r hr ht
    simp only [simLoop] at hr ⊢
    split_ifs at hr ⊢ with htot
    · simp only [List.mem_singleton] at hr
      subst hr
      refine ⟨rfl, ⟨[], by simp, by simp⟩, ?_⟩
      simp only [List.length_singleton, mkRow_age]
      omega
    · push_neg at htot
      simp only [List.mem_cons] at hr
      rcases hr with hr | hr
      · exfalso
        rw [hr, mkRow_total] at ht
        exact absurd ht (not_le.mpr htot)
      · obtain ⟨hex, ⟨rs, hsplit, hpos⟩, hlen⟩ :=
          ih (year + 1) _ (Nat.le_succ_of_le hy) r hr ht
        refine ⟨hex, ⟨mkRow p year (yearStep p year s) :: rs,
          cons_eq_append hsplit, ?_⟩, ?_⟩
        · intro x hx
          rcases List.mem_cons.mp hx with hx | hx
          · rw [hx, mkRow_total]; exact htot
          · exact hpos x hx
        · simp only [List.length_cons]
          omega

/-- If the loop reports an exhaustion age then that age is at least
`retirementAge + year - 1`. -/
lemma simLoop_age_lower (p : Params) :
    ∀ (n year : ℕ) (s : Buckets) (a : ℕ), 1 ≤ year →
      (simLoop p n year s).2 = some a → p.retirementAge + year ≤ a + 1 := by
  intro n
  induction n with
  | zero => intro year s a _ h; simp [simLoop] at h
  | succ n ih =>
    intro year s a hy h
    simp only [simLoop] at h
    split_ifs at h with htot
    · simp only [Option.some_inj] at h
      omega
    · have := ih (year + 1) _ a (Nat.le_succ_of_le hy) h
      omega

lemma simLoop_persist_b1 (p : Params) :
    ∀ (n year : ℕ) (s : Buckets) (i j : ℕ), i ≤ j →
      ∀ ri rj, (simLoop p n year s).1[i]? = some ri →
        (simLoop p n year s).1[j]? = some rj → ri.b1 = 0 → rj.b1 = 0 := by
  intro n
  induction n with
  | zero => intro year s i j _ ri rj hi _ _; simp [simLoop] at hi
  | succ n ih =>
    intro year s i j hij ri rj hi hj hz
    simp only [simLoop] at hi hj
    split_ifs at hi hj with htot
    · match i, j with
      | 0, 0 =>
        rw [List.getElem?_cons_zero, Option.some_inj] at hi hj
        rw [← hj, hi]
        exact hz
      | i + 1, 0 => exact absurd hij (by omega)
      | i, j + 1 =>
        rw [List.getElem?_cons_succ, List.getElem?_nil] at hj
        exact absurd hj (by simp)
    · match i, j with
      | 0, 0 =>
        rw [List.getElem?_cons_zero, Option.some_inj] at hi hj
        rw [← hj, hi]
        exact hz
      | i + 1, 0 => exact absurd hij (by omega)
      | 0, j + 1 =>
        rw [List.getElem?_cons_zero, Option.some_inj] at hi
        rw [List.getElem?_cons_succ] at hj
        have hz1 : (yearStep p year s).b1 = 0 :=
          (congrArg YearRecord.b1 hi).trans hz
        exact simLoop_all_zero_b1 p n (year + 1) _ hz1 rj (List.getElem?_mem hj)
      | i + 1, j + 1 =>
        rw [List.getElem?_cons_succ] at hi hj
        exact ih (year + 1) _ i j (by omega) ri rj hi hj hz

lemma simLoop_persist_b2 (p : Params) :
    ∀ (n year : ℕ) (s : Buckets) (i j : ℕ), i ≤ j →
      ∀ ri rj, (simLoop p n year s).1[i]? = some ri →
        (simLoop p n year s).1[j]? = some rj → ri.b2 = 0 → rj.b2 = 0 := by
  intro n
  induction n with
  | zero => intro year s i j _ ri rj hi _ _; simp [simLoop] at hi
  | succ n ih =>
    intro year s i j hij ri rj hi hj hz
    simp only [simLoop] at hi hj
    split_ifs at hi hj with htot
    · match i, j with
      | 0, 0 =>
        rw [List.getElem?_cons_zero, Option.some_inj] at hi hj
        rw [← hj, hi]
        exact hz
      | i + 1, 0 => exact absurd hij (by omega)
      | i, j + 1 =>
        rw [List.getElem?_cons_succ, List.getElem?_nil] at hj
        exact absurd hj (by simp)
    · match i, j with
      | 0, 0 =>
        rw [List.getElem?_cons_zero, Option.some_inj] at hi hj
        rw [← hj, hi]
        exact hz
      | i + 1, 0 => exact absurd hij (by omega)
      | 0, j + 1 =>
        rw [List.getElem?_cons_zero, Option.some_inj] at hi
        rw [List.getElem?_cons_succ] at hj
        have hz1 : (yearStep p year s).b2 = 0 :=
          (congrArg YearRecord.b2 hi).trans hz
        exact simLoop_all_zero_b2 p n (year + 1) _ hz1 rj (List.getElem?_mem hj)
      | i + 1, j + 1 =>
        rw [List.getElem?_cons_succ] at hi hj
        exact ih (year + 1) _ i j (by omega) ri rj hi hj hz

lemma simLoop_persist_b3 (p : Params) :
    ∀ (n year : ℕ) (s : Buckets) (i j : ℕ), i ≤ j →
      ∀ ri rj, (simLoop p n year s).1[i]? = some ri →
        (simLoop p n year s).1[j]? = some rj → ri.b3 = 0 → rj.b3 = 0 := by
  intro n
  induction n with
  | zero => intro year s i j _ ri rj hi _ _; simp [simLoop] at hi
  | succ n ih =>
    intro year s i j hij ri rj hi hj hz
    simp only [simLoop] at hi hj
    split_ifs at hi hj with htot
    · match i, j with
      | 0, 0 =>
        rw [List.getElem?_cons_zero, Option.some_inj] at hi hj
        rw [← hj, hi]
        exact hz
      | i + 1, 0 => exact absurd hij (by omega)
      | i, j + 1 =>
        rw [List.getElem?_cons_succ, List.getElem?_nil] at hj
        exact absurd hj (by simp)
    · match i, j with
      | 0, 0 =>
        rw [List.getElem?_cons_zero, Option.some_inj] at hi hj
        rw [← hj, hi]
        exact hz
      | i + 1, 0 => exact absurd hij (by omega)
      | 0, j + 1 =>
        rw [List.getElem?_cons_zero, Option.some_inj] at hi
        rw [List.getElem?_cons_succ] at hj
        have hz1 : (yearStep p year s).b3 = 0 :=
          (congrArg YearRecord.b3 hi).trans hz
        exact simLoop_all_zero_b3 p n (year + 1) _ hz1 rj (List.getElem?_mem hj)
      | i + 1, j + 1 =>
        rw [List.getElem?_cons_succ] at hi hj
        exact ih (year + 1) _ i j (by omega) ri rj hi hj hz

/-! ## Claim theorems -/

/-- C1: for every valid ParameterSet (non-negative corpus, expenses, pension,
rates in [0,1)), after every simulated year each bucket balance is
non-negative: no withdrawal, crash or growth step drives a bucket negative. -/
theorem buckets_never_negative (p : Params) (hv : Valid p) (r : YearRecord)
    (hr : r ∈ (simulate p).1) : 0 ≤ r.b1 ∧ 0 ≤ r.b2 ∧ 0 ≤ r.b3 := by
  obtain ⟨_, _, _, _, hc, _, _, hr1, _, hr2, _, hr3, _⟩ := hv
  exact simLoop_nonneg p hr1 hr2 hr3 (retirementYears p) 1 (initBuckets p)
    (mul_nonneg hc (by norm_num)) (mul_nonneg hc (by norm_num))
    (mul_nonneg hc (by norm_num)) r hr

/-- Witness for C1 at a concrete valid parameter set. -/
theorem buckets_never_negative_witness :
    (Valid pBase ∧ rB ∈ (simulate pBase).1) ∧
    (0 ≤ rB.b1 ∧ 0 ≤ rB.b2 ∧ 0 ≤ rB.b3) :=
  ⟨⟨by norm_num [Valid, pBase],
    by norm_num [simulate, simLoop, yearStep, growthStep, crashStep,
      withdrawStep, annualGap, annualExpense, annualExpenseBase,
      monthlyExpenseRetirement, annualPension, effectiveInflation,
      yearsToRetirement, initBuckets, retirementYears, mkRow, pBase, rB]⟩,
   buckets_never_negative pBase (by norm_num [Valid, pBase]) rB
     (by norm_num [simulate, simLoop, yearStep, growthStep, crashStep,
       withdrawStep, annualGap, annualExpense, annualExpenseBase,
       monthlyExpenseRetirement, annualPension, effectiveInflation,
       yearsToRetirement, initBuckets, retirementYears, mkRow, pBase, rB])⟩

/-- C2: a simulated year whose end-of-year total is non-positive is the last
record of the run: the exhaustion age is set to its age, which equals
retirementAge + year - 1 (year = number of records), every earlier record has
positive total, and no later records exist. -/
theorem exhaustion_terminates_simulation (p : Params) (r : YearRecord)
    (hr : r ∈ (simulate p).1) (ht : r.total ≤ 0) :
    (simulate p).2 = some r.age ∧
    (∃ rs, (simulate p).1 = rs ++ [r] ∧ ∀ x ∈ rs, 0 < x.total) ∧
    r.age + 1 = p.retirementAge + (simulate p).1.length := by
  obtain ⟨hex, hsplit, hlen⟩ :=
    simLoop_stop p (retirementYears p) 1 (initBuckets p) le_rfl r hr ht
  have hlen2 : r.age + 2 = p.retirementAge + 1 + (simulate p).1.length := hlen
  exact ⟨hex, hsplit, by omega⟩

/-- Witness for C2 at a concrete input exhausting in year one. -/
theorem exhaustion_terminates_simulation_witness :
    (rB ∈ (simulate pBase).1 ∧ rB.total ≤ 0) ∧
    ((simulate pBase).2 = some rB.age ∧
     (∃ rs, (simulate pBase).1 = rs ++ [rB] ∧ ∀ x ∈ rs, 0 < x.total) ∧
     rB.age + 1 = pBase.retirementAge + (simulate pBase).1.length) :=
  ⟨⟨by norm_num [simulate, simLoop, yearStep, growthStep, crashStep,
      withdrawStep, annualGap, annualExpense, annualExpenseBase,
      monthlyExpenseRetirement, annualPension, effectiveInflation,
      yearsToRetirement, initBuckets, retirementYears, mkRow, pBase, rB],
    by norm_num [rB]⟩,
   exhaustion_terminates_simulation pBase rB
     (by norm_num [simulate, simLoop, yearStep, growthStep, crashStep,
       withdrawStep, annualGap, annualExpense, annualExpenseBase,
       monthlyExpenseRetirement, annualPension, effectiveInflation,
       yearsToRetirement, initBuckets, retirementYears, mkRow, pBase, rB])
     (by norm_num [rB])⟩

/-- C3: on non-negative balances the withdrawal cascade takes min(b1, gap)
from bucket 1, then min(b2, residual) from bucket 2, then min(b3, residual)
from bucket 3 (the code permits bucket-3 withdrawal), and leaves every bucket
non-negative: an uncovered residual gap is simply unmet, never represented as
a negative balance. -/
theorem withdrawal_cascade_spec (p : Params) (year : ℕ) (s : Buckets)
    (h1 : 0 ≤ s.b1) (h2 : 0 ≤ s.b2) (h3 : 0 ≤ s.b3) :
    withdrawStep (annualGap p year) s = specWithdraw (annualGap p year) s ∧
    0 ≤ (withdrawStep (annualGap p year) s).b1 ∧
    0 ≤ (withdrawStep (annualGap p year) s).b2 ∧
    0 ≤ (withdrawStep (annualGap p year) s).b3 :=
  ⟨withdraw_eq_cascade _ s (annualGap_nonneg p year) h2 h3,
   withdrawStep_nonneg _ s h1 h2 h3⟩

/-- Witness for C3 on a concrete bucket state. -/
theorem withdrawal_cascade_spec_witness :
    ((0 : ℚ) ≤ 200 ∧ (0 : ℚ) ≤ 300 ∧ (0 : ℚ) ≤ 500) ∧
    (withdrawStep (annualGap pBase 1) ⟨200, 300, 500⟩ =
       specWithdraw (annualGap pBase 1) ⟨200, 300, 500⟩ ∧
     0 ≤ (withdrawStep (annualGap pBase 1) ⟨200, 300, 500⟩).b1 ∧
     0 ≤ (withdrawStep (annualGap pBase 1) ⟨200, 300, 500⟩).b2 ∧
     0 ≤ (withdrawStep (annualGap pBase 1) ⟨200, 300, 500⟩).b3) :=
  ⟨by norm_num,
   withdrawal_cascade_spec pBase 1 ⟨200, 300, 500⟩ (by norm_num) (by norm_num)
     (by norm_num)⟩

/-- C4: healthStatus is a pure function of exhaustionAge and lifeExpectancy:
GREEN exactly when exhaustionAge is none, AMBER exactly when exhausted with
exhaustionAge at least lifeExpectancy - 3, and RED otherwise. -/
theorem healthStatus_classification (ex : Option ℕ) (l : ℕ) :
    (healthStatus ex l = Status.GREEN ↔ ex = none) ∧
    (healthStatus ex l = Status.AMBER ↔
      ∃ a, ex = some a ∧ (l : ℤ) - 3 ≤ (a : ℤ)) ∧
    (healthStatus ex l = Status.RED ↔
      ∃ a, ex = some a ∧ (a : ℤ) < (l : ℤ) - 3) := by
  cases ex with
  | none => simp [healthStatus]
  | some a =>
    simp only [healthStatus]
    split_ifs with h
    · refine ⟨by simp, ?_, ?_⟩
      · exact ⟨fun _ => ⟨a, rfl, h⟩, fun _ => rfl⟩
      · constructor
        · intro hcon; cases hcon
        · rintro ⟨b, hb, hlt⟩
          rw [Option.some_inj] at hb
          subst hb
          exact absurd hlt (not_lt.mpr h)
    · refine ⟨by simp, ?_, ?_⟩
      · constructor
        · intro hcon; cases hcon
        · rintro ⟨b, hb, hle⟩
          rw [Option.some_inj] at hb
          subst hb
          exact absurd hle h
      · exact ⟨fun _ => ⟨a, rfl, not_le.mp h⟩, fun _ => rfl⟩

/-- C5 counterexample: a run that is exhausted (exhaustion age is set) while
additionalCorpusNeeded is 0, because the pension covers the mean expense; so
"additionalCorpusNeeded is zero only if exhaustionAge is null" is false. -/
theorem additional_corpus_zero_yet_exhausted :
    (simulate pCov).2 = some 2 ∧
    additionalCorpusNeeded pCov (simulate pCov).1 (simulate pCov).2 = 0 := by
  norm_num [simulate, simLoop, yearStep, growthStep, crashStep, withdrawStep,
    annualGap, annualExpense, annualExpenseBase, monthlyExpenseRetirement,
    annualPension, effectiveInflation, yearsToRetirement, initBuckets,
    retirementYears, mkRow, additionalCorpusNeeded, avgAnnualGap,
    meanMonthlyExpense, pCov]

/-- C5 (amended): additionalCorpusNeeded is 0 when exhaustionAge is null;
when exhausted it equals avgAnnualGap times (lifeExpectancy - exhaustionAge),
where avgAnnualGap = max(0, mean realized monthly expense x 12 - annual
pension) - a product that can itself be 0, so zero additional corpus does not
imply non-exhaustion. -/
theorem additional_corpus_formula (p : Params) (hv : Valid p) :
    ((simulate p).2 = none →
      additionalCorpusNeeded p (simulate p).1 (simulate p).2 = 0) ∧
    (∀ a, (simulate p).2 = some a →
      additionalCorpusNeeded p (simulate p).1 (simulate p).2 =
        avgAnnualGap p (simulate p).1 * ((p.lifeExpectancy : ℚ) - (a : ℚ))) := by
  constructor
  · intro h
    rw [h]
    rfl
  · intro a h
    have hage : p.retirementAge + 1 ≤ a + 1 :=
      simLoop_age_lower p (retirementYears p) 1 (initBuckets p) a le_rfl h
    have hpos : a ≠ 0 := by
      obtain ⟨h1, _⟩ := hv
      omega
    rw [h]
    simp [additionalCorpusNeeded, hpos]

/-- Witness for C5 (amended) at a concrete valid input. -/
theorem additional_corpus_formula_witness :
    Valid pBase ∧
    (((simulate pBase).2 = none →
       additionalCorpusNeeded pBase (simulate pBase).1 (simulate pBase).2 = 0) ∧
     (∀ a, (simulate pBase).2 = some a →
       additionalCorpusNeeded pBase (simulate pBase).1 (simulate pBase).2 =
         avgAnnualGap pBase (simulate pBase).1 *
           ((pBase.lifeExpectancy : ℚ) - (a : ℚ)))) :=
  ⟨by norm_num [Valid, pBase],
   additional_corpus_formula pBase (by norm_num [Valid, pBase])⟩

/-- C6 counterexample: with the inflation shock active and inflation 0 the
projected annual expense drops from year 5 to year 6, so monotonicity fails
for shock-active runs even though effectiveInflation is non-negative. -/
theorem expense_not_monotone_under_shock :
    0 ≤ pShock.inflation ∧ pShock.inflationShock = true ∧
    annualExpense pShock 6 < annualExpense pShock 5 := by
  norm_num [annualExpense, annualExpenseBase, monthlyExpenseRetirement,
    effectiveInflation, yearsToRetirement, pShock]

/-- C6 (amended): the projected annual expense is monotonically non-decreasing
from year y to year y+1 whenever inflation and the base expense are
non-negative and the two years lie in the same inflation regime: shock
inactive, or both years within the first five shocked years, or both years
after the shock window.  Across the year 5 to 6 boundary of an active shock
it can decrease. -/
theorem annualExpense_monotone (p : Params) (y : ℕ)
    (hb : 0 ≤ p.monthlyExpenseToday) (hi : 0 ≤ p.inflation)
    (hreg : p.inflationShock = false ∨ y + 1 ≤ 5 ∨ 6 ≤ y) :
    annualExpense p y ≤ annualExpense p (y + 1) := by
  have hbase : 0 ≤ annualExpenseBase p := by
    unfold annualExpenseBase monthlyExpenseRetirement
    have hp : (0 : ℚ) ≤ (1 + p.inflation) ^ yearsToRetirement p :=
      pow_nonneg (by linarith) _
    have := mul_nonneg hb hp
    linarith
  have heq : effectiveInflation p (y + 1) = effectiveInflation p y := by
    unfold effectiveInflation
    rcases hreg with h | h | h
    · simp [h]
    · have h5 : y ≤ 5 := by omega
      simp [h, h5]
    · have h5 : ¬(y ≤ 5) := by omega
      have h6 : ¬(y + 1 ≤ 5) := by omega
      simp [h5, h6]
  have hinf : 0 ≤ effectiveInflation p y := by
    unfold effectiveInflation
    split_ifs <;> linarith
  simp only [annualExpense, heq]
  have hy1 : (y + 1) - 1 = y := by omega
  rw [hy1]
  refine mul_le_mul_of_nonneg_left ?_ hbase
  exact pow_le_pow_right₀ (by linarith) (Nat.sub_le y 1)

/-- Witness for C6 (amended) at a shock-inactive parameter set. -/
theorem annualExpense_monotone_witness :
    (0 ≤ pBase.monthlyExpenseToday ∧ 0 ≤ pBase.inflation ∧
      (pBase.inflationShock = false ∨ 1 + 1 ≤ 5 ∨ 6 ≤ 1)) ∧
    annualExpense pBase 1 ≤ annualExpense pBase 2 :=
  ⟨⟨by norm_num [pBase], by norm_num [pBase], Or.inl (by norm_num [pBase])⟩,
   annualExpense_monotone pBase 1 (by norm_num [pBase]) (by norm_num [pBase])
     (Or.inl (by norm_num [pBase]))⟩

/-- C7 counterexample: the code's crash impact is hard-coded at 0.15, so under
the sustained 3-year crash the bucket-3 balance after year 1's crash step is
0.85 times the pre-crash balance, not 0.80 times it as the claim states. -/
theorem crash_step_is_not_twenty_percent :
    pCrash.crashDuration = 3 ∧
    crashStep pCrash 1 ⟨0, 0, 100⟩ = ⟨0, 0, 85⟩ ∧
    crashStep pCrash 1 ⟨0, 0, 100⟩ ≠ ⟨0, 0, (80 : ℚ)⟩ := by
  norm_num [crashStep, crashImpact, pCrash, Buckets.mk.injEq]

/-- C7 (amended): in every crash year (year at most crashDuration) the crash
step multiplies bucket 3 by 0.85 (impact fixed at 15 percent, not 20) and
leaves buckets 1 and 2 unchanged. -/
theorem crash_scales_bucket3_by_085 (p : Params) (year : ℕ) (s : Buckets)
    (h : year ≤ p.crashDuration) :
    crashStep p year s = ⟨s.b1, s.b2, s.b3 * (85 / 100)⟩ := by
  rw [crashStep, if_pos h]
  have hk : (1 : ℚ) - crashImpact = 85 / 100 := by norm_num [crashImpact]
  rw [hk]

/-- Witness for C7 (amended) in a concrete crash year. -/
theorem crash_scales_bucket3_by_085_witness :
    1 ≤ pCrash.crashDuration ∧
    crashStep pCrash 1 ⟨0, 0, 100⟩ = ⟨0, 0, 100 * (85 / 100)⟩ :=
  ⟨by norm_num [pCrash],
   crash_scales_bucket3_by_085 pCrash 1 ⟨0, 0, 100⟩ (by norm_num [pCrash])⟩

/-- C8: each bucket is compounded independently by its own return strictly
after the year's withdrawals and crash effects: the year pipeline equals the
cascade withdrawal, then the crash factor on bucket 3 only, then the
per-bucket growth multipliers applied to those net balances. -/
theorem growth_compounds_after_cash_movements (p : Params) (year : ℕ)
    (s : Buckets) (h2 : 0 ≤ s.b2) (h3 : 0 ≤ s.b3) :
    yearStep p year s =
      ⟨(specWithdraw (annualGap p year) s).b1 * (1 + p.r1),
       (specWithdraw (annualGap p year) s).b2 * (1 + p.r2),
       (specWithdraw (annualGap p year) s).b3 *
         (if year ≤ p.crashDuration then 1 - crashImpact else 1) *
           (1 + p.r3)⟩ := by
  rw [yearStep, withdraw_eq_cascade _ s (annualGap_nonneg p year) h2 h3,
    crashStep]
  split_ifs with h
  · rfl
  · simp [growthStep, mul_one]

/-- Witness for C8 on a concrete state in a crash year. -/
theorem growth_compounds_after_cash_movements_witness :
    ((0 : ℚ) ≤ 300 ∧ (0 : ℚ) ≤ 500) ∧
    yearStep pCrash 1 ⟨200, 300, 500⟩ =
      ⟨(specWithdraw (annualGap pCrash 1) ⟨200, 300, 500⟩).b1 * (1 + pCrash.r1),
       (specWithdraw (annualGap pCrash 1) ⟨200, 300, 500⟩).b2 * (1 + pCrash.r2),
       (specWithdraw (annualGap pCrash 1) ⟨200, 300, 500⟩).b3 *
         (if 1 ≤ pCrash.crashDuration then 1 - crashImpact else 1) *
           (1 + pCrash.r3)⟩ :=
  ⟨by norm_num,
   growth_compounds_after_cash_movements pCrash 1 ⟨200, 300, 500⟩ (by norm_num)
     (by norm_num)⟩

/-- C9: once a bucket balance is exactly zero in some record it is zero in
every later record: the loop contains no replenishment or rebalance step and
withdrawal, crash, and growth all map a zero balance to zero. -/
theorem zero_bucket_stays_zero (p : Params) (i j : ℕ) (hij : i ≤ j)
    (ri rj : YearRecord) (hi : (simulate p).1[i]? = some ri)
    (hj : (simulate p).1[j]? = some rj) :
    (ri.b1 = 0 → rj.b1 = 0) ∧ (ri.b2 = 0 → rj.b2 = 0) ∧
    (ri.b3 = 0 → rj.b3 = 0) :=
  ⟨simLoop_persist_b1 p (retirementYears p) 1 (initBuckets p) i j hij ri rj hi hj,
   simLoop_persist_b2 p (retirementYears p) 1 (initBuckets p) i j hij ri rj hi hj,
   simLoop_persist_b3 p (retirementYears p) 1 (initBuckets p) i j hij ri rj hi hj⟩

/-- Witness for C9 at concrete indices of a concrete run. -/
theorem zero_bucket_stays_zero_witness :
    ((0 : ℕ) ≤ 0 ∧ (simulate pBase).1[0]? = some rB ∧
      (simulate pBase).1[0]? = some rB) ∧
    ((rB.b1 = 0 → rB.b1 = 0) ∧ (rB.b2 = 0 → rB.b2 = 0) ∧
      (rB.b3 = 0 → rB.b3 = 0)) :=
  ⟨⟨le_refl 0,
    by norm_num [simulate, simLoop, yearStep, growthStep, crashStep,
      withdrawStep, annualGap, annualExpense, annualExpenseBase,
      monthlyExpenseRetirement, annualPension, effectiveInflation,
      yearsToRetirement, initBuckets, retirementYears, mkRow, pBase, rB,
      List.getElem?_cons_zero],
    by norm_num [simulate, simLoop, yearStep, growthStep, crashStep,
      withdrawStep, annualGap, annualExpense, annualExpenseBase,
      monthlyExpenseRetirement, annualPension, effectiveInflation,
      yearsToRetirement, initBuckets, retirementYears, mkRow, pBase, rB,
      List.getElem?_cons_zero]⟩,
   zero_bucket_stays_zero pBase 0 0 (le_refl 0) rB rB
     (by norm_num [simulate, simLoop, yearStep, growthStep, crashStep,
       withdrawStep, annualGap, annualExpense, annualExpenseBase,
       monthlyExpenseRetirement, annualPension, effectiveInflation,
       yearsToRetirement, initBuckets, retirementYears, mkRow, pBase, rB,
       List.getElem?_cons_zero])
     (by norm_num [simulate, simLoop, yearStep, growthStep, crashStep,
       withdrawStep, annualGap, annualExpense, annualExpenseBase,
       monthlyExpenseRetirement, annualPension, effectiveInflation,
       yearsToRetirement, initBuckets, retirementYears, mkRow, pBase, rB,
       List.getElem?_cons_zero])⟩

/-- C10: with a zero total corpus the simulation records exhaustion in the
first year (exhaustion age = retirement age), produces exactly one record,
and classifies the plan AMBER or RED - exhaustion depends only on the total
being non-positive, not on whether the pension covered expenses. -/
theorem zero_corpus_exhausts_immediately (p : Params)
    (hc : p.totalCorpus = 0) (hlt : p.retirementAge < p.lifeExpectancy) :
    (simulate p).2 = some p.retirementAge ∧ (simulate p).1.length = 1 ∧
    (healthStatus (simulate p).2 p.lifeExpectancy = Status.AMBER ∨
     healthStatus (simulate p).2 p.lifeExpectancy = Status.RED) := by
  obtain ⟨n, hn⟩ : ∃ n, retirementYears p = n + 1 := by
    refine ⟨retirementYears p - 1, ?_⟩
    unfold retirementYears
    omega
  have hinit : initBuckets p = ⟨0, 0, 0⟩ := by
    simp [initBuckets, hc]
  have hstep : yearStep p 1 (⟨0, 0, 0⟩ : Buckets) = ⟨0, 0, 0⟩ := by
    have e1 := yearStep_zero_b1 p 1 ⟨0, 0, 0⟩ rfl
    have e2 := yearStep_zero_b2 p 1 ⟨0, 0, 0⟩ rfl
    have e3 := yearStep_zero_b3 p 1 ⟨0, 0, 0⟩ rfl
    have hsplit : yearStep p 1 (⟨0, 0, 0⟩ : Buckets) =
        ⟨(yearStep p 1 ⟨0, 0, 0⟩).b1, (yearStep p 1 ⟨0, 0, 0⟩).b2,
          (yearStep p 1 ⟨0, 0, 0⟩).b3⟩ := rfl
    rw [hsplit, e1, e2, e3]
  have hsim : simulate p = ([mkRow p 1 ⟨0, 0, 0⟩], some p.retirementAge) := by
    unfold simulate
    rw [hn, hinit]
    simp only [simLoop, hstep]
    norm_num
  rw [hsim]
  refine ⟨rfl, rfl, ?_⟩
  simp only [healthStatus]
  split_ifs with h
  · exact Or.inl rfl
  · exact Or.inr rfl

/-- Witness for C10: zero corpus with a pension that fully covers expenses. -/
theorem zero_corpus_exhausts_immediately_witness :
    (pCov.totalCorpus = 0 ∧ pCov.retirementAge < pCov.lifeExpectancy) ∧
    ((simulate pCov).2 = some pCov.retirementAge ∧
     (simulate pCov).1.length = 1 ∧
     (healthStatus (simulate pCov).2 pCov.lifeExpectancy = Status.AMBER ∨
      healthStatus (simulate pCov).2 pCov.lifeExpectancy = Status.RED)) :=
  ⟨⟨by norm_num [pCov], by norm_num [pCov]⟩,
   zero_corpus_exhausts_immediately pCov (by norm_num [pCov])
     (by norm_num [pCov])⟩

end Retirement
